import Mathlib

/-!
Shallow embedding of the Fan Impact Engine's simulation core
(`backend/src/mock_model.py`, `optimizer.py`, `monte_carlo.py`) and proofs of
the spec's testable properties.  Python floats are modelled as real numbers;
code that can raise is modelled with `Option` (`none` = an exception
propagates).
-/

namespace Fie

/-- Logistic sigmoid `1 / (1 + exp(-x))`, embedding `_sigmoid`. -/
noncomputable def sigmoid (x : ℝ) : ℝ := 1 / (1 + Real.exp (-x))

/-- Embedding of `_clamp(x, lo, hi) = max(lo, min(hi, x))`. -/
noncomputable def clamp (x lo hi : ℝ) : ℝ := max lo (min hi x)

/-- ASCII whitespace stripped by Python around an integer literal (a shallow
model of the stripping done by `int()`; exotic unicode spaces are out of
scope of the embedding). -/
def pyWhitespace (c : Char) : Bool :=
  c == ' ' || c == '\t' || c == '\n' || c == '\r' || c == Char.ofNat 11 || c == Char.ofNat 12

/-- Strip leading and trailing whitespace from a character list. -/
def stripWs (cs : List Char) : List Char :=
  ((cs.dropWhile pyWhitespace).reverse.dropWhile pyWhitespace).reverse

/-- Digits of a Python integer literal after the first one: decimal digits with
single underscores allowed between digits. -/
def parseDigitsCore : List Char → ℕ → Option ℕ
  | [], acc => some acc
  | '_' :: c :: rest, acc =>
      if c.isDigit then parseDigitsCore rest (acc * 10 + (c.toNat - 48)) else none
  | c :: rest, acc =>
      if c.isDigit then parseDigitsCore rest (acc * 10 + (c.toNat - 48)) else none

/-- A nonempty run of decimal digits (with inner underscores), as a number. -/
def parseDigits : List Char → Option ℕ
  | [] => none
  | c :: rest => if c.isDigit then parseDigitsCore rest (c.toNat - 48) else none

/-- Shallow model of Python `int(s)`: optional surrounding whitespace, an
optional sign, then decimal digits (single underscores allowed between
digits).  `none` where Python raises `ValueError`. -/
def pyParseInt (s : String) : Option ℤ :=
  match stripWs s.data with
  | '+' :: rest => (parseDigits rest).map (fun n => (n : ℤ))
  | '-' :: rest => (parseDigits rest).map (fun n => -(n : ℤ))
  | rest => (parseDigits rest).map (fun n => (n : ℤ))

/-- Embedding of `_is_night`: parse the text before the first `:` as an
integer hour and test `hour >= 18`; the guarded `except` branch returns
`false` for every string the parse rejects. -/
def isNight (s : String) : Bool :=
  match pyParseInt ((s.splitOn ":").headD "") with
  | some h => decide (18 ≤ h)
  | none => false

/-- Claim C9: for every kickoff string, the night-game test returns (it is a
total function), it is `true` exactly when the text before the first `:`
parses as an integer hour `>= 18`, and hence it is `false` on every malformed
string (the parse yields `none`). -/
theorem c9_is_night_guarded_parse (s : String) :
    isNight s = true ↔
      ∃ h : ℤ, pyParseInt ((s.splitOn ":").headD "") = some h ∧ 18 ≤ h := by
  unfold isNight
  cases hp : pyParseInt ((s.splitOn ":").headD "") with
  | none => simp
  | some h => simp

/-- The five-value promotion enumeration of `PromotionType`. -/
inductive PromotionType where
  | none
  | student_push
  | alumni_night
  | family_bundle
  | rivalry_hype
deriving DecidableEq, Repr

/-- Embedding of `_PROMO_MAP` (logit-scale promotion effects). -/
noncomputable def promoLogit : PromotionType → ℝ
  | .none => 0.0
  | .student_push => 0.18
  | .alumni_night => 0.10
  | .family_bundle => -0.06
  | .rivalry_hype => 0.22

/-- Embedding of the frozen dataclass `HfaInputs`. -/
structure HfaInputs where
  attendance : ℤ
  venue_capacity : ℤ
  student_ratio : ℝ
  rivalry_flag : Bool
  opponent_rank : ℤ
  home_team_rank : ℤ
  weather_wind_mph : ℤ
  kickoff_time_local : String
  promotion_type : PromotionType
  crowd_energy : ℤ
  is_indoor : Bool := false

/-- `fill_clamped` of `predict_hfa`: occupancy `attendance/cap` clamped to
`[0, 1.2]` and then to `[0, 1]`. -/
noncomputable def hfaFillClamped (i : HfaInputs) : ℝ :=
  max 0 (min (min (((max i.attendance 0 : ℤ) : ℝ) / ((max i.venue_capacity 1 : ℤ) : ℝ)) 1.2) 1)

/-- `rank_edge = (opponent_rank - home_team_rank) / 25`. -/
noncomputable def hfaRankEdge (i : HfaInputs) : ℝ :=
  ((i.opponent_rank - i.home_team_rank : ℤ) : ℝ) / 25

/-- `energy`: crowd energy clamped to `[0, 100]` and scaled to `[0, 1]`. -/
noncomputable def hfaEnergy (i : HfaInputs) : ℝ :=
  ((max 0 (min i.crowd_energy 100) : ℤ) : ℝ) / 100

/-- The log-odds score of `predict_hfa`: intercept `0.28` plus the sum of the
twelve named terms (fill linear and signed-quadratic, student ratio, rivalry,
tanh-compressed rank edge, outdoor wind penalty, night kick, promotion,
power-law crowd energy, the two interaction terms, and enclosure). -/
noncomputable def hfaLogit (i : HfaInputs) : ℝ :=
  let fill_centered := hfaFillClamped i - 0.85
  let rank_compressed := Real.tanh (hfaRankEdge i * 0.85)
  let night : ℝ := if isNight i.kickoff_time_local then 1 else 0
  let rivalry : ℝ := if i.rivalry_flag then 1 else 0
  let energy_effect := hfaEnergy i ^ (0.7 : ℝ)
  let wind_penalty : ℝ :=
    if i.is_indoor then 0 else -0.18 * max 0 (((i.weather_wind_mph : ℝ) - 10) / 10)
  let enclosure : ℝ := if i.is_indoor then 1 else 0
  0.28 + (1.20 * fill_centered
    + 0.45 * fill_centered ^ 2 * (if 0 < fill_centered then (1 : ℝ) else -1)
    + 1.00 * (i.student_ratio - 0.18)
    + 0.30 * rivalry
    + 0.90 * rank_compressed
    + wind_penalty
    + 0.12 * night
    + promoLogit i.promotion_type
    + 0.40 * energy_effect
    + 0.25 * fill_centered * energy_effect
    + 0.15 * fill_centered * rivalry
    + 0.08 * enclosure)

/-- The hierarchical log-odds standard deviation of `predict_hfa` (`sd_parts`
summed). -/
noncomputable def hfaSdLogit (i : HfaInputs) : ℝ :=
  0.18 + 0.07 * |hfaRankEdge i|
    + (if i.is_indoor then 0 else 0.05 * clamp ((i.weather_wind_mph : ℝ) / 25) 0 1)
    + 0.04 * (1 - hfaFillClamped i)
    + 0.05 * (if i.rivalry_flag then (1 : ℝ) else 0)
    + 0.02 * (1 - hfaEnergy i)

/-- Embedding of `_normal_ci_from_logit`. -/
noncomputable def normalCiFromLogit (logit sd_logit z : ℝ) : ℝ × ℝ :=
  (sigmoid (logit - z * sd_logit), sigmoid (logit + z * sd_logit))

/-- The fields of `predict_hfa`'s result used by the verified properties. -/
structure HfaResult where
  predicted_win_probability : ℝ
  predicted_win_probability_ci_low : ℝ
  predicted_win_probability_ci_high : ℝ
  sd_logit : ℝ
  intercept_logit : ℝ

/-- Embedding of `predict_hfa`: the logistic point estimate and its 90%
confidence interval `sigmoid(logit ± 1.645·sd_logit)`. -/
noncomputable def predictHfa (i : HfaInputs) : HfaResult :=
  let logit := hfaLogit i
  let sd := hfaSdLogit i
  let ci := normalCiFromLogit logit sd 1.645
  { predicted_win_probability := sigmoid logit
    predicted_win_probability_ci_low := ci.1
    predicted_win_probability_ci_high := ci.2
    sd_logit := sd
    intercept_logit := 0.28 }

theorem sigmoid_pos (x : ℝ) : 0 < sigmoid x := by
  unfold sigmoid
  positivity

theorem sigmoid_lt_one (x : ℝ) : sigmoid x < 1 := by
  unfold sigmoid
  rw [div_lt_one (by positivity)]
  linarith [Real.exp_pos (-x)]

theorem sigmoid_mono {x y : ℝ} (h : x ≤ y) : sigmoid x ≤ sigmoid y := by
  unfold sigmoid
  have hx : (0 : ℝ) < 1 + Real.exp (-y) := by positivity
  apply one_div_le_one_div_of_le hx
  have := Real.exp_le_exp.mpr (neg_le_neg h)
  linarith

theorem hfaFillClamped_nonneg (i : HfaInputs) : 0 ≤ hfaFillClamped i :=
  le_max_left _ _

theorem hfaFillClamped_le_one (i : HfaInputs) : hfaFillClamped i ≤ 1 :=
  max_le (by norm_num) (min_le_right _ _)

theorem hfaEnergy_nonneg (i : HfaInputs) : 0 ≤ hfaEnergy i := by
  unfold hfaEnergy
  have : (0 : ℤ) ≤ max 0 (min i.crowd_energy 100) := le_max_left _ _
  have h : (0 : ℝ) ≤ ((max 0 (min i.crowd_energy 100) : ℤ) : ℝ) := by exact_mod_cast this
  positivity

theorem hfaEnergy_le_one (i : HfaInputs) : hfaEnergy i ≤ 1 := by
  unfold hfaEnergy
  rw [div_le_one (by norm_num)]
  have : max 0 (min i.crowd_energy 100) ≤ (100 : ℤ) :=
    max_le (by norm_num) (min_le_right _ _)
  exact_mod_cast this

theorem hfaSdLogit_nonneg (i : HfaInputs) : 0 ≤ hfaSdLogit i := by
  unfold hfaSdLogit
  have h1 : (0 : ℝ) ≤ 0.07 * |hfaRankEdge i| := by positivity
  have h2 : (0 : ℝ) ≤
      (if i.is_indoor then 0 else 0.05 * clamp ((i.weather_wind_mph : ℝ) / 25) 0 1) := by
    split
    · norm_num
    · have : (0 : ℝ) ≤ clamp ((i.weather_wind_mph : ℝ) / 25) 0 1 := le_max_left _ _
      linarith
  have h3 : (0 : ℝ) ≤ 0.04 * (1 - hfaFillClamped i) := by
    have := hfaFillClamped_le_one i
    linarith
  have h4 : (0 : ℝ) ≤ 0.05 * (if i.rivalry_flag then (1 : ℝ) else 0) := by
    split <;> norm_num
  have h5 : (0 : ℝ) ≤ 0.02 * (1 - hfaEnergy i) := by
    have := hfaEnergy_le_one i
    linarith
  linarith

/-- Claim C3: for every `HfaInputs` value, `predict_hfa` returns a win
probability strictly between 0 and 1, and the CI bounds
`sigmoid(logit ± 1.645·sd)` bracket the point estimate. -/
theorem c3_predict_hfa_probability_in_open_unit_and_ci_brackets (i : HfaInputs) :
    0 < (predictHfa i).predicted_win_probability ∧
    (predictHfa i).predicted_win_probability < 1 ∧
    (predictHfa i).predicted_win_probability_ci_low ≤
      (predictHfa i).predicted_win_probability ∧
    (predictHfa i).predicted_win_probability ≤
      (predictHfa i).predicted_win_probability_ci_high := by
  have hsd := hfaSdLogit_nonneg i
  refine ⟨sigmoid_pos _, sigmoid_lt_one _, ?_, ?_⟩
  · exact sigmoid_mono (by nlinarith)
  · exact sigmoid_mono (by nlinarith)

/-- The keyword arguments of `predict_loudness_db` (with the source's
defaults). -/
structure LoudnessInputs where
  attendance : ℤ
  venue_capacity : ℤ
  rivalry_flag : Bool
  kickoff_time_local : String
  crowd_energy : ℤ
  student_ratio : ℝ := 0.18
  is_indoor : Bool := false
  weather_temp_f : ℤ := 65

/-- The fields of `predict_loudness_db`'s result used by the verified
properties. -/
structure LoudnessResult where
  projected_decibels : ℝ
  projected_decibels_ci_low : ℝ
  projected_decibels_ci_high : ℝ
  sd_db : ℝ

/-- `fill` of `predict_loudness_db`: `max(0, min(attendance/cap, 1))`. -/
noncomputable def loudFill (i : LoudnessInputs) : ℝ :=
  max 0 (min ((i.attendance : ℝ) / ((max i.venue_capacity 1 : ℤ) : ℝ)) 1)

/-- `energy` of `predict_loudness_db`: crowd energy clamped to `[0,100]`,
scaled to `[0,1]`. -/
noncomputable def loudEnergy (i : LoudnessInputs) : ℝ :=
  ((max 0 (min i.crowd_energy 100) : ℤ) : ℝ) / 100

/-- The unclamped decibel sum of `predict_loudness_db`: ambient base 88 plus
log-fill, student density, rivalry, night, enclosure, power-law energy,
coordinated-chant and cold-weather contributions. -/
noncomputable def loudDbRaw (i : LoudnessInputs) : ℝ :=
  let fill := loudFill i
  let energy := loudEnergy i
  let sr := max 0 (min i.student_ratio 0.5)
  let fill_db := if 0 < fill then 15 * (Real.logb 2 (1 + fill * 7) / Real.logb 2 8) else 0
  let student_db := 3.5 * max 0 (sr - 0.12) / 0.18
  let coordination_db := if 0.70 < energy then 2.0 * max 0 ((energy - 0.70) / 0.30) else 0
  let cold_db := if i.is_indoor then 0 else 0.8 * max 0 ((50 - (i.weather_temp_f : ℝ)) / 30)
  (88 : ℝ) + fill_db + student_db
    + (if i.rivalry_flag then (3 : ℝ) else 0)
    + (if isNight i.kickoff_time_local then 1.5 else 0)
    + (if i.is_indoor then (4 : ℝ) else 0)
    + energy ^ (0.6 : ℝ) * 10
    + coordination_db + cold_db

/-- `db` of `predict_loudness_db` after the final clamp to `[82, 125]`. -/
noncomputable def loudDb (i : LoudnessInputs) : ℝ :=
  max 82 (min 125 (loudDbRaw i))

/-- `sd_db` of `predict_loudness_db`: base, fill-deficit, energy-deficit,
rivalry and cold-weather uncertainty components. -/
noncomputable def loudSdDb (i : LoudnessInputs) : ℝ :=
  1.2 + 1.5 * (1 - loudFill i) + 0.8 * (1 - loudEnergy i)
    + (if i.rivalry_flag then 0.6 else 0)
    + (if !i.is_indoor && i.weather_temp_f < 40 then 0.4 else 0)

/-- Embedding of `predict_loudness_db`: clamped decibels and the 90% CI
`db ± 1.645·sd_db` clamped to the safety band `[70, 135]`. -/
noncomputable def predictLoudnessDb (i : LoudnessInputs) : LoudnessResult :=
  { projected_decibels := loudDb i
    projected_decibels_ci_low := max 70 (loudDb i - 1.645 * loudSdDb i)
    projected_decibels_ci_high := min 135 (loudDb i + 1.645 * loudSdDb i)
    sd_db := loudSdDb i }

theorem loudFill_le_one (i : LoudnessInputs) : loudFill i ≤ 1 :=
  max_le (by norm_num) (min_le_right _ _)

theorem loudEnergy_le_one (i : LoudnessInputs) : loudEnergy i ≤ 1 := by
  unfold loudEnergy
  rw [div_le_one (by norm_num)]
  have : max 0 (min i.crowd_energy 100) ≤ (100 : ℤ) :=
    max_le (by norm_num) (min_le_right _ _)
  exact_mod_cast this

theorem loudSdDb_nonneg (i : LoudnessInputs) : 0 ≤ loudSdDb i := by
  unfold loudSdDb
  have h1 := loudFill_le_one i
  have h2 := loudEnergy_le_one i
  have h3 : (0 : ℝ) ≤ (if i.rivalry_flag then (0.6 : ℝ) else 0) := by split <;> norm_num
  have h4 : (0 : ℝ) ≤ (if !i.is_indoor && i.weather_temp_f < 40 then (0.4 : ℝ) else 0) := by
    split <;> norm_num
  linarith

/-- Claim C7: for every input combination, `predict_loudness_db` returns
decibels within `[82, 125]`, and CI bounds that lie within the safety band
`[70, 135]` and bracket the point estimate. -/
theorem c7_predict_loudness_db_bounds_and_ci (i : LoudnessInputs) :
    82 ≤ (predictLoudnessDb i).projected_decibels ∧
    (predictLoudnessDb i).projected_decibels ≤ 125 ∧
    70 ≤ (predictLoudnessDb i).projected_decibels_ci_low ∧
    (predictLoudnessDb i).projected_decibels_ci_high ≤ 135 ∧
    (predictLoudnessDb i).projected_decibels_ci_low ≤
      (predictLoudnessDb i).projected_decibels ∧
    (predictLoudnessDb i).projected_decibels ≤
      (predictLoudnessDb i).projected_decibels_ci_high := by
  have hsd := loudSdDb_nonneg i
  have h82 : (82 : ℝ) ≤ loudDb i := by unfold loudDb; exact le_max_left _ _
  have h125 : loudDb i ≤ 125 := by
    unfold loudDb
    exact max_le (by norm_num) (min_le_left _ _)
  unfold predictLoudnessDb
  dsimp only
  refine ⟨h82, h125, le_max_left _ _, min_le_left _ _, ?_, ?_⟩
  · exact max_le (by linarith) (by linarith)
  · exact le_min (by linarith) (by linarith)

/-- Per-window queue metrics returned by `mm_s_metrics`. -/
structure QueueMetrics where
  rho : ℝ
  p_wait : ℝ
  wq_min : ℝ
  p_wait_gt_15 : ℝ

/-- Embedding of the nested `logsumexp` on a nonempty list (`max` plus the
log of the sum of shifted exponentials); the `[]` case is unreachable from
the one call site modelled here. -/
noncomputable def logsumexp : List ℝ → ℝ
  | [] => 0
  | x :: xs =>
      let m := xs.foldl max x
      m + Real.log (((x :: xs).map (fun t => Real.exp (t - m))).sum)

/-- Embedding of `mm_s_metrics`: the M/M/s-inspired approximation with
Erlang-C in log space.  `lgamma(k+1)` is `log (k!)`.  Returns `none` where
Python raises (`s = 1` in the Erlang branch calls `max` on an empty list). -/
noncomputable def mmSMetrics (arrivals_per_min mu_per_stand : ℝ) (stands_open : ℤ) :
    Option QueueMetrics :=
  let s : ℤ := max 1 stands_open
  let mu : ℝ := max 1e-6 mu_per_stand
  let lam : ℝ := max 0 arrivals_per_min
  let a : ℝ := lam / mu
  if a ≤ 0 then some { rho := 0, p_wait := 0, wq_min := 0, p_wait_gt_15 := 0 }
  else if (s : ℝ) ≤ a then some { rho := 1.5, p_wait := 1.0, wq_min := 45.0, p_wait_gt_15 := 1.0 }
  else if s = 1 then none
  else
    let rho := a / (s : ℝ)
    let log_terms := (List.range s.toNat).map
      (fun (k : ℕ) => if k = 0 then (0 : ℝ) else (k : ℝ) * Real.log a - Real.log (Nat.factorial k))
    let log_sum := logsumexp log_terms.dropLast
    let log_b := ((s : ℝ) * Real.log a - Real.log (Nat.factorial s.toNat))
      + Real.log ((s : ℝ) / ((s : ℝ) - a))
    let denom := Real.exp log_sum + Real.exp log_b
    let p_wait := Real.exp log_b / denom
    let wq := p_wait / ((s : ℝ) * mu - lam)
    let p_gt_15 := p_wait * Real.exp (-(((s : ℝ) * mu - lam)) * 15)
    some { rho := rho, p_wait := clamp p_wait 0 1, wq_min := clamp wq 0 60,
           p_wait_gt_15 := clamp p_gt_15 0 1 }

/-- Claim C4: in the queue approximation, a window whose offered load
`a = lam/mu` is positive and at least the server count `s` gets exactly the
saturation sentinels (rho 1.5, p_wait 1, wq 45 min, P(wait>15) 1), and a
window with zero arrivals gets exactly zeros. -/
theorem c4_mm_s_saturated_and_zero_sentinels (arrivals_per_min mu_per_stand : ℝ)
    (stands_open : ℤ) :
    ((0 : ℝ) < max 0 arrivals_per_min / max 1e-6 mu_per_stand →
      ((max 1 stands_open : ℤ) : ℝ) ≤ max 0 arrivals_per_min / max 1e-6 mu_per_stand →
      mmSMetrics arrivals_per_min mu_per_stand stands_open =
        some { rho := 1.5, p_wait := 1.0, wq_min := 45.0, p_wait_gt_15 := 1.0 }) ∧
    (arrivals_per_min = 0 →
      mmSMetrics arrivals_per_min mu_per_stand stands_open =
        some { rho := 0, p_wait := 0, wq_min := 0, p_wait_gt_15 := 0 }) := by
  constructor
  · intro h1 h2
    unfold mmSMetrics
    rw [if_neg (not_le.mpr h1), if_pos h2]
  · intro h0
    subst h0
    unfold mmSMetrics
    rw [if_pos (by simp)]

/-- Sanity evaluation: a saturated concrete window (`a = 10 ≥ s = 2`) yields
the sentinel metrics. -/
theorem mmSMetrics_saturated_example :
    mmSMetrics 10 1 2 = some { rho := 1.5, p_wait := 1.0, wq_min := 45.0, p_wait_gt_15 := 1.0 } := by
  unfold mmSMetrics
  rw [if_neg (by norm_num), if_pos (by norm_num)]

/-- Sanity evaluation: a concrete window with zero arrivals yields zeros. -/
theorem mmSMetrics_zero_example :
    mmSMetrics 0 1 2 = some { rho := 0, p_wait := 0, wq_min := 0, p_wait_gt_15 := 0 } := by
  unfold mmSMetrics
  rw [if_pos (by norm_num)]

/-- Modelled from the spec: the static `concessions_menu.json` catalog is not
part of the source tree, only its loader `load_concessions_menu` is, so the
menu record is modelled after the spec's data model — per-segment per-capita
spend and gross-margin percentages, categorical spend adjustments
(cold/night/promotion boosts and drops). -/
structure Menu where
  per_cap_spend_student : ℝ
  per_cap_spend_nonstudent : ℝ
  gross_margin_student_pct : ℝ
  gross_margin_nonstudent_pct : ℝ
  cold_weather_spend_boost_pct : ℝ
  night_game_spend_boost_pct : ℝ
  student_push_spend_drop_pct : ℝ
  family_bundle_spend_drop_pct : ℝ
  alumni_night_spend_boost_pct : ℝ
  rivalry_hype_spend_boost_pct : ℝ

/-- Modelled from the spec: the venue's concessions configuration
(`venue.json` is not in the source tree): total stands, service rate per
staff per minute, express-lane service boost percentage. -/
structure VenueConcessions where
  stands_total : ℤ
  service_rate_customers_per_staff_per_min : ℝ
  express_lane_service_boost_pct : ℝ

/-- The composite demand multiplier of `simulate_concessions`: sport
multiplier, granular outdoor weather tiers, night-game boost, and the
promotion-specific adjustment. -/
noncomputable def demandMult (menu : Menu) (sport_mult : ℝ) (weather_temp_f : ℤ)
    (kickoff_time_local : String) (promotion_type : PromotionType) (is_indoor : Bool) : ℝ :=
  let m1 :=
    if is_indoor then sport_mult
    else if weather_temp_f ≤ 35 then sport_mult * (1 + menu.cold_weather_spend_boost_pct / 100 * 1.3)
    else if weather_temp_f ≤ 45 then sport_mult * (1 + menu.cold_weather_spend_boost_pct / 100)
    else if weather_temp_f ≤ 55 then sport_mult * (1 + menu.cold_weather_spend_boost_pct / 100 * 0.4)
    else if 90 ≤ weather_temp_f then sport_mult * 1.05
    else sport_mult
  let m2 := if isNight kickoff_time_local then m1 * (1 + menu.night_game_spend_boost_pct / 100) else m1
  match promotion_type with
  | .student_push => m2 * (1 - menu.student_push_spend_drop_pct / 100)
  | .family_bundle => m2 * (1 - menu.family_bundle_spend_drop_pct / 100)
  | .alumni_night => m2 * (1 + menu.alumni_night_spend_boost_pct / 100)
  | .rivalry_hype => m2 * (1 + menu.rivalry_hype_spend_boost_pct / 100)
  | .none => m2

/-- The discretized wait-time band by utilization threshold (Aramark SLA
bands). -/
noncomputable def waitBand (util : ℝ) : ℝ × ℝ :=
  if util ≤ 0.75 then (3, 8)
  else if util ≤ 0.90 then (8, 15)
  else if util ≤ 1.05 then (15, 28)
  else (28, 45)

/-- One entry of `wait_time_windows`. -/
structure WindowResult where
  window : String
  arrivals_per_min : ℝ
  utilization : ℝ
  wait_lo : ℝ
  wait_hi : ℝ
  queue : QueueMetrics
  abandonment_loss_usd : ℝ

/-- One iteration of the window loop of `simulate_concessions`: arrival rate,
utilization, queue metrics, wait band and the abandonment loss
`min(0.25, (midpoint-12)·0.015)` applied to the window's revenue share. -/
noncomputable def mkWindow (att revenue_total capacity_per_min mu_per_stand : ℝ)
    (stands_open : ℤ) (name : String) (minutes pct : ℝ) : Option WindowResult :=
  let customers := att * pct
  let arrivals_per_min := if 0 < minutes then customers / minutes else customers
  let util := arrivals_per_min / max capacity_per_min 1e-6
  (mmSMetrics arrivals_per_min mu_per_stand stands_open).map (fun q =>
    let band := waitBand util
    let avg_wait := (band.1 + band.2) / 2
    let loss := if 12 < avg_wait then revenue_total * pct * min 0.25 ((avg_wait - 12) * 0.015) else 0
    { window := name
      arrivals_per_min := arrivals_per_min
      utilization := util
      wait_lo := band.1
      wait_hi := band.2
      queue := q
      abandonment_loss_usd := loss })

/-- The window loop: an exception in any window (`none`) aborts the whole
simulation. -/
noncomputable def processWindows (att revenue_total capacity_per_min mu_per_stand : ℝ)
    (stands_open : ℤ) : List (String × ℝ × ℝ) → Option (List WindowResult)
  | [] => some []
  | (name, minutes, pct) :: rest =>
    match mkWindow att revenue_total capacity_per_min mu_per_stand stands_open name minutes pct,
        processWindows att revenue_total capacity_per_min mu_per_stand stands_open rest with
    | some w, some ws => some (w :: ws)
    | _, _ => none

/-- The fields of `simulate_concessions`'s result used by the verified
properties. -/
structure ConcessionsResult where
  revenue_total_usd : ℝ
  revenue_total_usd_ci_low : ℝ
  revenue_total_usd_ci_high : ℝ
  revenue_gross_usd : ℝ
  revenue_abandonment_loss_usd : ℝ
  revenue_students_usd : ℝ
  revenue_nonstudents_usd : ℝ
  gross_margin_usd : ℝ
  per_cap_spend_usd : ℝ
  sd_revenue_pct : ℝ
  stands_open : ℤ
  capacity_per_min : ℝ
  wait_time_windows : List WindowResult
  worst_utilization : ℝ
  worst_p_wait_gt_15 : ℝ
  recommended_staff_per_stand : ℤ
  staffing_plan : List (String × ℤ)

/-- `student_count` of `simulate_concessions`: attendance floored at 0 times
the ratio clamped to `[0,1]`, rounded.  `round` models Python's `round`
(they differ only on exact half-integers, where Python rounds to even; no
verified property depends on tie behaviour). -/
noncomputable def concStudentCount (attendance : ℤ) (student_ratio : ℝ) : ℤ :=
  round (((max 0 attendance : ℤ) : ℝ) * max 0 (min student_ratio 1))

/-- The student-segment revenue of `simulate_concessions`. -/
noncomputable def concRevenueStudents (menu : Menu) (sport_mult : ℝ) (attendance : ℤ)
    (student_ratio : ℝ) (kickoff_time_local : String) (weather_temp_f : ℤ)
    (promotion_type : PromotionType) (is_indoor : Bool) : ℝ :=
  (concStudentCount attendance student_ratio : ℝ) * menu.per_cap_spend_student *
    demandMult menu sport_mult weather_temp_f kickoff_time_local promotion_type is_indoor

/-- The non-student-segment revenue of `simulate_concessions`. -/
noncomputable def concRevenueNon (menu : Menu) (sport_mult : ℝ) (attendance : ℤ)
    (student_ratio : ℝ) (kickoff_time_local : String) (weather_temp_f : ℤ)
    (promotion_type : PromotionType) (is_indoor : Bool) : ℝ :=
  ((max 0 (max 0 attendance - concStudentCount attendance student_ratio) : ℤ) : ℝ) *
    menu.per_cap_spend_nonstudent *
    demandMult menu sport_mult weather_temp_f kickoff_time_local promotion_type is_indoor

/-- Embedding of `simulate_concessions`.  The menu and venue records, and the
resolved sport multiplier, are passed explicitly (the code reads them from
cached JSON catalogs). -/
noncomputable def simulateConcessions (menu : Menu) (sport_mult : ℝ) (conc : VenueConcessions)
    (attendance : ℤ) (student_ratio : ℝ) (kickoff_time_local : String) (weather_temp_f : ℤ)
    (promotion_type : PromotionType) (stands_open_pct : ℤ) (staff_per_stand : ℤ)
    (express_lanes early_arrival_promo is_indoor : Bool) : Option ConcessionsResult :=
  let att : ℤ := max 0 attendance
  let revenue_students := concRevenueStudents menu sport_mult attendance student_ratio
    kickoff_time_local weather_temp_f promotion_type is_indoor
  let revenue_non := concRevenueNon menu sport_mult attendance student_ratio
    kickoff_time_local weather_temp_f promotion_type is_indoor
  let revenue_total := revenue_students + revenue_non
  let margin_non := menu.gross_margin_nonstudent_pct / 100
  let gross_margin := revenue_students * (menu.gross_margin_student_pct / 100)
    + revenue_non * margin_non
  let sd_rev_pct : ℝ := clamp
    (0.06 + 0.04 * |max 0 (min student_ratio 1) - 0.18|
      + (if !is_indoor && weather_temp_f ≤ 45 then 0.02 else 0)
      + (if isNight kickoff_time_local then 0.01 else 0)) 0.05 0.14
  let ci_rev_low := revenue_total * (1 - 1.645 * sd_rev_pct)
  let ci_rev_high := revenue_total * (1 + 1.645 * sd_rev_pct)
  let stands_open : ℤ := max 1 (round ((conc.stands_total : ℝ) * ((stands_open_pct : ℝ) / 100)))
  let staff : ℤ := max 1 staff_per_stand
  let service_rate := conc.service_rate_customers_per_staff_per_min
  let boost : ℝ := if express_lanes then conc.express_lane_service_boost_pct / 100 else 0
  let capacity_per_min := (stands_open : ℝ) * (staff : ℝ) * service_rate * (1 + boost)
  let mu_per_stand := (staff : ℝ) * service_rate * (1 + boost)
  let windows : List (String × ℝ × ℝ) :=
    [("pre_kick", 60, 0.12 + if early_arrival_promo then 0.02 else 0),
     ("halftime", 20, 0.22),
     ("q4", 15, 0.06)]
  match processWindows (att : ℝ) revenue_total capacity_per_min mu_per_stand stands_open windows with
  | Option.none => Option.none
  | some ws =>
    let worst_util := ws.foldl (fun acc w => max acc w.utilization) 0
    let worst_p15 := ws.foldl (fun acc w => max acc w.queue.p_wait_gt_15) 0
    let total_loss := (ws.map (fun w => w.abandonment_loss_usd)).sum
    let effective_revenue := revenue_total - total_loss
    let halftime_arrivals :=
      ((ws.find? (fun w => w.window == "halftime")).map (fun w => w.arrivals_per_min)).getD 0
    let required : ℤ := max 1 (min
      (⌈halftime_arrivals / max (stands_open : ℝ) 1 / max service_rate 1e-6 /
        max (0.90 * (1 + boost)) 1e-6⌉) 20)
    let staffing_plan := ws.map (fun w =>
      (w.window, max 1 (min
        (⌈w.arrivals_per_min / max (stands_open : ℝ) 1 / max service_rate 1e-6 /
          max (0.90 * (1 + boost)) 1e-6⌉) 20)))
    some { revenue_total_usd := effective_revenue
           revenue_total_usd_ci_low := ci_rev_low - total_loss
           revenue_total_usd_ci_high := ci_rev_high
           revenue_gross_usd := revenue_total
           revenue_abandonment_loss_usd := total_loss
           revenue_students_usd := revenue_students
           revenue_nonstudents_usd := revenue_non
           gross_margin_usd := gross_margin - total_loss * margin_non
           per_cap_spend_usd := if 0 < att then effective_revenue / (att : ℝ) else 0
           sd_revenue_pct := sd_rev_pct
           stands_open := stands_open
           capacity_per_min := capacity_per_min
           wait_time_windows := ws
           worst_utilization := worst_util
           worst_p_wait_gt_15 := worst_p15
           recommended_staff_per_stand := required
           staffing_plan := staffing_plan }

set_option maxHeartbeats 1600000 in
/-- Claim C8: with attendance 0 and every other input arbitrary,
`simulate_concessions` returns (no exception) with
`revenue_total_usd = 0` and `per_cap_spend_usd = 0`. -/
theorem c8_concessions_zero_attendance (menu : Menu) (sport_mult : ℝ)
    (conc : VenueConcessions) (student_ratio : ℝ) (kickoff_time_local : String)
    (weather_temp_f : ℤ) (promotion_type : PromotionType) (stands_open_pct staff_per_stand : ℤ)
    (express_lanes early_arrival_promo is_indoor : Bool) :
    (simulateConcessions menu sport_mult conc 0 student_ratio kickoff_time_local
        weather_temp_f promotion_type stands_open_pct staff_per_stand express_lanes
        early_arrival_promo is_indoor).map
      (fun r => (r.revenue_total_usd, r.per_cap_spend_usd)) = some (0, 0) := by
  unfold simulateConcessions
  norm_num [processWindows, mkWindow, mmSMetrics, waitBand, concRevenueStudents,
    concRevenueNon, concStudentCount]

/-- Modelled from the spec: well-formedness of the menu catalog's percentage
data — per-capita spends are nonnegative, boost percentages are nonnegative
and drop percentages do not exceed 100. -/
def MenuWF (m : Menu) : Prop :=
  0 ≤ m.per_cap_spend_student ∧ 0 ≤ m.per_cap_spend_nonstudent ∧
  0 ≤ m.cold_weather_spend_boost_pct ∧ 0 ≤ m.night_game_spend_boost_pct ∧
  m.student_push_spend_drop_pct ≤ 100 ∧ m.family_bundle_spend_drop_pct ≤ 100 ∧
  0 ≤ m.alumni_night_spend_boost_pct ∧ 0 ≤ m.rivalry_hype_spend_boost_pct

set_option maxHeartbeats 1000000 in
theorem demandMult_nonneg (menu : Menu) (sport_mult : ℝ) (weather_temp_f : ℤ)
    (kickoff_time_local : String) (promotion_type : PromotionType) (is_indoor : Bool)
    (hm : MenuWF menu) (hs : 0 ≤ sport_mult) :
    0 ≤ demandMult menu sport_mult weather_temp_f kickoff_time_local promotion_type is_indoor := by
  obtain ⟨-, -, h3, h4, h5, h6, h7, h8⟩ := hm
  have hw1 : (0 : ℝ) ≤ 1 + menu.cold_weather_spend_boost_pct / 100 * 1.3 := by linarith
  have hw2 : (0 : ℝ) ≤ 1 + menu.cold_weather_spend_boost_pct / 100 := by linarith
  have hw3 : (0 : ℝ) ≤ 1 + menu.cold_weather_spend_boost_pct / 100 * 0.4 := by linarith
  have hn : (0 : ℝ) ≤ 1 + menu.night_game_spend_boost_pct / 100 := by linarith
  unfold demandMult
  have hm1 : (0 : ℝ) ≤
      (if is_indoor then sport_mult
       else if weather_temp_f ≤ 35 then sport_mult * (1 + menu.cold_weather_spend_boost_pct / 100 * 1.3)
       else if weather_temp_f ≤ 45 then sport_mult * (1 + menu.cold_weather_spend_boost_pct / 100)
       else if weather_temp_f ≤ 55 then sport_mult * (1 + menu.cold_weather_spend_boost_pct / 100 * 0.4)
       else if 90 ≤ weather_temp_f then sport_mult * 1.05
       else sport_mult) := by
    split_ifs <;>
      first
        | exact hs
        | exact mul_nonneg hs hw1
        | exact mul_nonneg hs hw2
        | exact mul_nonneg hs hw3
        | exact mul_nonneg hs (by norm_num)
  set m1 : ℝ :=
      (if is_indoor then sport_mult
       else if weather_temp_f ≤ 35 then sport_mult * (1 + menu.cold_weather_spend_boost_pct / 100 * 1.3)
       else if weather_temp_f ≤ 45 then sport_mult * (1 + menu.cold_weather_spend_boost_pct / 100)
       else if weather_temp_f ≤ 55 then sport_mult * (1 + menu.cold_weather_spend_boost_pct / 100 * 0.4)
       else if 90 ≤ weather_temp_f then sport_mult * 1.05
       else sport_mult) with hm1def
  have hm2 : (0 : ℝ) ≤
      (if isNight kickoff_time_local then m1 * (1 + menu.night_game_spend_boost_pct / 100) else m1) := by
    split_ifs
    · exact mul_nonneg hm1 hn
    · exact hm1
  set m2 : ℝ :=
      (if isNight kickoff_time_local then m1 * (1 + menu.night_game_spend_boost_pct / 100) else m1)
    with hm2def
  cases promotion_type <;> dsimp only <;>
    first
      | exact hm2
      | exact mul_nonneg hm2 (by linarith)

theorem round_nonneg_of_nonneg {x : ℝ} (hx : 0 ≤ x) : (0 : ℤ) ≤ round x := by
  rw [round_eq]
  exact Int.le_floor.mpr (by push_cast; linarith)

theorem concStudentCount_nonneg (attendance : ℤ) (student_ratio : ℝ) :
    0 ≤ concStudentCount attendance student_ratio := by
  unfold concStudentCount
  apply round_nonneg_of_nonneg
  have h1 : (0 : ℝ) ≤ ((max 0 attendance : ℤ) : ℝ) := by
    exact_mod_cast le_max_left 0 attendance
  have h2 : (0 : ℝ) ≤ max 0 (min student_ratio 1) := le_max_left _ _
  exact mul_nonneg h1 h2

theorem concRevenue_total_nonneg (menu : Menu) (sport_mult : ℝ) (attendance : ℤ)
    (student_ratio : ℝ) (kickoff_time_local : String) (weather_temp_f : ℤ)
    (promotion_type : PromotionType) (is_indoor : Bool)
    (hm : MenuWF menu) (hs : 0 ≤ sport_mult) :
    0 ≤ concRevenueStudents menu sport_mult attendance student_ratio kickoff_time_local
          weather_temp_f promotion_type is_indoor +
        concRevenueNon menu sport_mult attendance student_ratio kickoff_time_local
          weather_temp_f promotion_type is_indoor := by
  have hmult := demandMult_nonneg menu sport_mult weather_temp_f kickoff_time_local
    promotion_type is_indoor hm hs
  have hsc : (0 : ℝ) ≤ (concStudentCount attendance student_ratio : ℝ) := by
    exact_mod_cast concStudentCount_nonneg attendance student_ratio
  have hnc : (0 : ℝ) ≤
      ((max 0 (max 0 attendance - concStudentCount attendance student_ratio) : ℤ) : ℝ) := by
    exact_mod_cast le_max_left 0 _
  obtain ⟨h1, h2, -⟩ := hm
  unfold concRevenueStudents concRevenueNon
  have := mul_nonneg (mul_nonneg hsc h1) hmult
  have := mul_nonneg (mul_nonneg hnc h2) hmult
  linarith

theorem mkWindow_loss_le (att revenue_total capacity_per_min mu_per_stand : ℝ)
    (stands_open : ℤ) (name : String) (minutes pct : ℝ)
    (hrev : 0 ≤ revenue_total) (hpct : 0 ≤ pct) :
    ∀ w, mkWindow att revenue_total capacity_per_min mu_per_stand stands_open name minutes pct =
        some w →
      w.abandonment_loss_usd ≤ revenue_total * pct * 0.25 := by
  intro w hw
  simp only [mkWindow] at hw
  cases hq : mmSMetrics (if 0 < minutes then att * pct / minutes else att * pct)
      mu_per_stand stands_open with
  | none => rw [hq] at hw; simp at hw
  | some q =>
    rw [hq] at hw
    simp only [Option.map_some'] at hw
    injection hw with hw
    obtain rfl := hw.symm
    dsimp only
    split_ifs <;>
      first
        | exact mul_le_mul_of_nonneg_left (min_le_left _ _) (mul_nonneg hrev hpct)
        | exact mul_nonneg (mul_nonneg hrev hpct) (by norm_num)

theorem processWindows_total_loss_le (att revenue_total capacity_per_min mu_per_stand : ℝ)
    (stands_open : ℤ) (l : List (String × ℝ × ℝ)) (hrev : 0 ≤ revenue_total)
    (hl : ∀ x ∈ l, 0 ≤ x.2.2) :
    ∀ ws, processWindows att revenue_total capacity_per_min mu_per_stand stands_open l = some ws →
      ((ws.map (fun w => w.abandonment_loss_usd)).sum ≤
        revenue_total * 0.25 * ((l.map (fun x => x.2.2)).sum)) := by
  induction l with
  | nil =>
    intro ws hws
    simp only [processWindows] at hws
    obtain rfl := (Option.some_injective _ hws).symm
    simp
  | cons x rest ih =>
    intro ws hws
    obtain ⟨name, minutes, pct⟩ := x
    simp only [processWindows] at hws
    cases hw : mkWindow att revenue_total capacity_per_min mu_per_stand stands_open
        name minutes pct with
    | none => rw [hw] at hws; simp at hws
    | some w =>
      cases hrest : processWindows att revenue_total capacity_per_min mu_per_stand
          stands_open rest with
      | none => rw [hw, hrest] at hws; simp at hws
      | some ws' =>
        rw [hw, hrest] at hws
        dsimp only at hws
        obtain rfl := (Option.some_injective _ hws).symm
        have hpct : 0 ≤ pct := hl _ (List.mem_cons_self _ _)
        have h1 := mkWindow_loss_le att revenue_total capacity_per_min mu_per_stand
          stands_open name minutes pct hrev hpct w hw
        have h2 := ih (fun y hy => hl y (List.mem_cons_of_mem _ hy)) ws' hrest
        simp only [List.map_cons, List.sum_cons]
        ring_nf
        ring_nf at h1 h2
        linarith

/-- Claim C10 (spec-modelled menu data): for every input and every
well-formed menu, `simulate_concessions` returns a nonnegative
`revenue_total_usd` even after the abandonment-loss subtraction, and the
total abandonment loss never exceeds 11% of gross revenue. -/
theorem c10_concessions_net_revenue_nonneg (menu : Menu) (sport_mult : ℝ)
    (conc : VenueConcessions) (attendance : ℤ) (student_ratio : ℝ)
    (kickoff_time_local : String) (weather_temp_f : ℤ) (promotion_type : PromotionType)
    (stands_open_pct staff_per_stand : ℤ) (express_lanes early_arrival_promo is_indoor : Bool)
    (hm : MenuWF menu) (hs : 0 ≤ sport_mult) :
    (simulateConcessions menu sport_mult conc attendance student_ratio kickoff_time_local
        weather_temp_f promotion_type stands_open_pct staff_per_stand express_lanes
        early_arrival_promo is_indoor).elim True
      (fun r => 0 ≤ r.revenue_total_usd ∧
        r.revenue_abandonment_loss_usd ≤ 0.11 * r.revenue_gross_usd) := by
  have hrev := concRevenue_total_nonneg menu sport_mult attendance student_ratio
    kickoff_time_local weather_temp_f promotion_type is_indoor hm hs
  simp only [simulateConcessions]
  cases hws : processWindows ((max 0 attendance : ℤ) : ℝ)
      (concRevenueStudents menu sport_mult attendance student_ratio kickoff_time_local
        weather_temp_f promotion_type is_indoor +
       concRevenueNon menu sport_mult attendance student_ratio kickoff_time_local
        weather_temp_f promotion_type is_indoor)
      ((max 1 (round ((conc.stands_total : ℝ) * ((stands_open_pct : ℝ) / 100))) : ℤ) *
        ((max 1 staff_per_stand : ℤ) : ℝ) * conc.service_rate_customers_per_staff_per_min *
        (1 + if express_lanes then conc.express_lane_service_boost_pct / 100 else 0))
      (((max 1 staff_per_stand : ℤ) : ℝ) * conc.service_rate_customers_per_staff_per_min *
        (1 + if express_lanes then conc.express_lane_service_boost_pct / 100 else 0))
      (max 1 (round ((conc.stands_total : ℝ) * ((stands_open_pct : ℝ) / 100))))
      [("pre_kick", 60, 0.12 + if early_arrival_promo then 0.02 else 0),
       ("halftime", 20, 0.22), ("q4", 15, 0.06)] with
  | none =>
    exact trivial
  | some ws =>
    dsimp only [Option.elim]
    have hl : ∀ x ∈ ([("pre_kick", 60, 0.12 + if early_arrival_promo then 0.02 else 0),
        ("halftime", 20, 0.22), ("q4", 15, 0.06)] : List (String × ℝ × ℝ)), 0 ≤ x.2.2 := by
      intro x hx
      simp only [List.mem_cons, List.not_mem_nil, or_false] at hx
      rcases hx with rfl | rfl | rfl
      · dsimp only; split_ifs <;> norm_num
      · norm_num
      · norm_num
    have hloss := processWindows_total_loss_le _ _ _ _ _ _ hrev hl ws hws
    have hsum : ((([("pre_kick", 60, 0.12 + if early_arrival_promo then 0.02 else 0),
        ("halftime", 20, 0.22), ("q4", 15, 0.06)] : List (String × ℝ × ℝ)).map
          (fun x => x.2.2)).sum) ≤ 0.42 := by
      cases early_arrival_promo <;> norm_num
    have hS0 : (0 : ℝ) ≤ (([("pre_kick", 60, 0.12 + if early_arrival_promo then 0.02 else 0),
        ("halftime", 20, 0.22), ("q4", 15, 0.06)] : List (String × ℝ × ℝ)).map
          (fun x => x.2.2)).sum := by
      cases early_arrival_promo <;> norm_num
    have hboundS : (ws.map (fun w => w.abandonment_loss_usd)).sum ≤
        (concRevenueStudents menu sport_mult attendance student_ratio kickoff_time_local
          weather_temp_f promotion_type is_indoor +
         concRevenueNon menu sport_mult attendance student_ratio kickoff_time_local
          weather_temp_f promotion_type is_indoor) * 0.25 * 0.42 := by
      refine le_trans hloss ?_
      exact mul_le_mul_of_nonneg_left hsum (by positivity)
    constructor
    · dsimp only
      linarith
    · dsimp only
      linarith

/-- Modelled from the spec: a concrete menu record with the benchmark
per-capita spends ($7.50 student, $15.50 non-student), margins (59%, 66%)
and plausible adjustment percentages, used to witness the menu
well-formedness hypotheses. -/
noncomputable def menuExample : Menu :=
  { per_cap_spend_student := 7.5
    per_cap_spend_nonstudent := 15.5
    gross_margin_student_pct := 59
    gross_margin_nonstudent_pct := 66
    cold_weather_spend_boost_pct := 15
    night_game_spend_boost_pct := 8
    student_push_spend_drop_pct := 10
    family_bundle_spend_drop_pct := 8
    alumni_night_spend_boost_pct := 10
    rivalry_hype_spend_boost_pct := 12 }

/-- Modelled from the spec: a concrete venue concessions configuration
(service rate 0.55 customers/staff/min per the benchmark note). -/
noncomputable def venueConcExample : VenueConcessions :=
  { stands_total := 60
    service_rate_customers_per_staff_per_min := 0.55
    express_lane_service_boost_pct := 25 }

/-- Witness for claim C10's theorem at a concrete well-formed menu and
scenario. -/
theorem c10_concessions_net_revenue_nonneg_witness :
    MenuWF menuExample ∧ (0 : ℝ) ≤ 1 ∧
    (simulateConcessions menuExample 1 venueConcExample 80000 0.2 "19:30" 40
        PromotionType.none 85 6 false false false).elim True
      (fun r => 0 ≤ r.revenue_total_usd ∧
        r.revenue_abandonment_loss_usd ≤ 0.11 * r.revenue_gross_usd) :=
  ⟨by norm_num [MenuWF, menuExample], by norm_num,
   c10_concessions_net_revenue_nonneg menuExample 1 venueConcExample 80000 0.2 "19:30" 40
     PromotionType.none 85 6 false false false
     (by norm_num [MenuWF, menuExample]) (by norm_num)⟩

/-- Python `range(a, b, step)` for a positive step: `a, a+step, ...` strictly
below `b`. -/
def rangeStep (a b step : ℤ) : List ℤ :=
  (List.range (((b - a + step - 1) / step).toNat)).map (fun (k : ℕ) => a + step * (k : ℤ))

/-- Python `x or d` on an optional integer: `None` and `0` both fall through
to the default. -/
def pyOrInt (o : Option ℤ) (d : ℤ) : ℤ :=
  match o with
  | Option.none => d
  | some x => if x = 0 then d else x

/-- The `Game` record fields read by the optimizer. -/
structure Game where
  venue_capacity : ℤ
  kickoff_time_local : String
  rivalry_flag : Bool
  opponent_rank : Option ℤ
  home_team_rank : Option ℤ
  baseline_attendance : ℤ
  baseline_student_ratio : ℝ
  baseline_weather_temp_f : ℤ
  baseline_weather_wind_mph : ℤ
  baseline_weather_precip_chance : ℤ
  baseline_promotion_type : PromotionType

/-- The optional per-field overrides of `ScenarioOverrides`
(`model_dump(exclude_none=True)` merges only the set fields). -/
structure ScenarioOverrides where
  attendance : Option ℤ := Option.none
  student_ratio : Option ℝ := Option.none
  opponent_rank : Option ℤ := Option.none
  home_team_rank : Option ℤ := Option.none
  kickoff_time_local : Option String := Option.none
  weather_wind_mph : Option ℤ := Option.none
  weather_temp_f : Option ℤ := Option.none
  weather_precip_chance : Option ℤ := Option.none
  promotion_type : Option PromotionType := Option.none
  crowd_energy : Option ℤ := Option.none
  stands_open_pct : Option ℤ := Option.none
  staff_per_stand : Option ℤ := Option.none
  express_lanes : Option Bool := Option.none
  early_arrival_promo : Option Bool := Option.none

/-- The `OptimizeRequest` constraint fields (pydantic defaults kept). -/
structure OptimizeRequest where
  current_overrides : ScenarioOverrides := {}
  max_attendance_increase : ℤ := 5000
  max_student_ratio_increase : ℝ := 0.03
  max_crowd_energy_increase : ℤ := 25
  max_staff_per_stand : ℤ := 12
  min_stands_open_pct : ℤ := 80
  target_delta_win_pp : Option ℝ := Option.none

/-- The venue configuration fields the optimizer reads (crowd and
concessions defaults, the concessions record, and the resolved sport
multiplier for the menu lookup). -/
structure VenueCfg where
  default_crowd_energy : ℤ
  default_stands_open_pct : ℤ
  default_staff_per_stand : ℤ
  conc : VenueConcessions
  sport_mult : ℝ

/-- A fully merged scenario (the `base`/`current` dicts of
`optimize_game`). -/
structure CurrentScenario where
  attendance : ℤ
  student_ratio : ℝ
  opponent_rank : ℤ
  home_team_rank : ℤ
  kickoff_time_local : String
  weather_wind_mph : ℤ
  weather_temp_f : ℤ
  weather_precip_chance : ℤ
  promotion_type : PromotionType
  crowd_energy : ℤ
  stands_open_pct : ℤ
  staff_per_stand : ℤ
  express_lanes : Bool
  early_arrival_promo : Bool

/-- The `base` dict of `optimize_game`: game baselines plus venue
defaults. -/
def optBase (game : Game) (vcfg : VenueCfg) : CurrentScenario :=
  { attendance := game.baseline_attendance
    student_ratio := game.baseline_student_ratio
    opponent_rank := pyOrInt game.opponent_rank 25
    home_team_rank := pyOrInt game.home_team_rank 25
    kickoff_time_local := game.kickoff_time_local
    weather_wind_mph := game.baseline_weather_wind_mph
    weather_temp_f := game.baseline_weather_temp_f
    weather_precip_chance := game.baseline_weather_precip_chance
    promotion_type := game.baseline_promotion_type
    crowd_energy := vcfg.default_crowd_energy
    stands_open_pct := vcfg.default_stands_open_pct
    staff_per_stand := vcfg.default_staff_per_stand
    express_lanes := false
    early_arrival_promo := false }

/-- `current = {**base, **req.current_overrides.model_dump(exclude_none=True)}`. -/
def optCurrent (game : Game) (vcfg : VenueCfg) (ov : ScenarioOverrides) : CurrentScenario :=
  let b := optBase game vcfg
  { attendance := ov.attendance.getD b.attendance
    student_ratio := ov.student_ratio.getD b.student_ratio
    opponent_rank := ov.opponent_rank.getD b.opponent_rank
    home_team_rank := ov.home_team_rank.getD b.home_team_rank
    kickoff_time_local := ov.kickoff_time_local.getD b.kickoff_time_local
    weather_wind_mph := ov.weather_wind_mph.getD b.weather_wind_mph
    weather_temp_f := ov.weather_temp_f.getD b.weather_temp_f
    weather_precip_chance := ov.weather_precip_chance.getD b.weather_precip_chance
    promotion_type := ov.promotion_type.getD b.promotion_type
    crowd_energy := ov.crowd_energy.getD b.crowd_energy
    stands_open_pct := ov.stands_open_pct.getD b.stands_open_pct
    staff_per_stand := ov.staff_per_stand.getD b.staff_per_stand
    express_lanes := ov.express_lanes.getD b.express_lanes
    early_arrival_promo := ov.early_arrival_promo.getD b.early_arrival_promo }

/-- The baseline `HfaInputs` of `optimize_game` (`is_indoor` is not passed,
so it defaults to `False`). -/
def baseHfaInputs (game : Game) (vcfg : VenueCfg) : HfaInputs :=
  let b := optBase game vcfg
  { attendance := b.attendance
    venue_capacity := game.venue_capacity
    student_ratio := b.student_ratio
    rivalry_flag := game.rivalry_flag
    opponent_rank := b.opponent_rank
    home_team_rank := b.home_team_rank
    weather_wind_mph := b.weather_wind_mph
    kickoff_time_local := b.kickoff_time_local
    promotion_type := b.promotion_type
    crowd_energy := b.crowd_energy
    is_indoor := false }

/-- `att_vals = range(att0, att0 + max_attendance_increase + 1, 500)`. -/
def optAttVals (cur : CurrentScenario) (req : OptimizeRequest) : List ℤ :=
  rangeStep cur.attendance (cur.attendance + req.max_attendance_increase + 1) 500

/-- `round(x, 3)` (Python half-even ties are modelled half-up; no verified
property depends on ties). -/
noncomputable def round3 (x : ℝ) : ℝ := ((round (x * 1000) : ℤ) : ℝ) / 1000

/-- The number of iterations of the `while x <= sr_max + 1e-9` loop. -/
noncomputable def optSrCount (cur : CurrentScenario) (req : OptimizeRequest) : ℕ :=
  let sr0 := cur.student_ratio
  let srMax := min 1 (sr0 + req.max_student_ratio_increase)
  if sr0 ≤ srMax + 1e-9 then ⌊(srMax + 1e-9 - sr0) / 0.005⌋₊ + 1 else 0

/-- `sr_vals`: `round(sr0 + 0.005·k, 3)` for each loop iteration. -/
noncomputable def optSrVals (cur : CurrentScenario) (req : OptimizeRequest) : List ℝ :=
  (List.range (optSrCount cur req)).map (fun k => round3 (cur.student_ratio + 0.005 * (k : ℝ)))

/-- `en_vals = range(en0, min(100, en0 + max_crowd_energy_increase) + 1, 5)`. -/
def optEnVals (cur : CurrentScenario) (req : OptimizeRequest) : List ℤ :=
  rangeStep cur.crowd_energy (min 100 (cur.crowd_energy + req.max_crowd_energy_increase) + 1) 5

/-- `stands_vals = range(max(min_stands_open_pct, 50), 101, 5)`. -/
def standsVals (min_stands_open_pct : ℤ) : List ℤ :=
  rangeStep (max min_stands_open_pct 50) 101 5

/-- `staff_vals = range(min(current_staff, max_staff), max_staff + 1)`. -/
def optStaffVals (cur : CurrentScenario) (req : OptimizeRequest) : List ℤ :=
  rangeStep (min cur.staff_per_stand req.max_staff_per_stand) (req.max_staff_per_stand + 1) 1

/-- One point of the optimizer's six-axis discretized grid. -/
structure GridPoint where
  attendance : ℤ
  student_ratio : ℝ
  crowd_energy : ℤ
  stands_open_pct : ℤ
  staff_per_stand : ℤ
  express_lanes : Bool

/-- The nested loops of `optimize_game` as a list of grid points, with the
`att > 0 and sr > 0.30` skip. -/
noncomputable def optGridPoints (cur : CurrentScenario) (req : OptimizeRequest) : List GridPoint :=
  (optAttVals cur req).bind (fun att =>
    (optSrVals cur req).bind (fun sr =>
      (optEnVals cur req).bind (fun en =>
        if 0 < att ∧ (0.30 : ℝ) < sr then []
        else
          (standsVals req.min_stands_open_pct).bind (fun st =>
            (optStaffVals cur req).bind (fun sf =>
              [false, true].map (fun ex =>
                { attendance := att, student_ratio := sr, crowd_energy := en,
                  stands_open_pct := st, staff_per_stand := sf, express_lanes := ex }))))))

/-- Embedding of `_score_candidate`. -/
noncomputable def scoreCandidate (delta_win util revenue_total : ℝ) (target_pp : Option ℝ) : ℝ :=
  let delta_pp := delta_win * 100
  let overload := max 0 (util - 0.90)
  let base := 1.0 * delta_pp - 6.0 * overload + 0.000001 * revenue_total
  match target_pp with
  | Option.none => base
  | some t => base + 2.0 * min delta_pp t + (if t ≤ delta_pp then 3.0 else 0)

/-- The `OptimizeCandidate` record. -/
structure OptimizeCandidate where
  overrides : GridPoint
  delta_win_probability : ℝ
  ops_worst_utilization : ℝ
  revenue_total_usd : ℝ
  score : ℝ

/-- One grid-point evaluation of `optimize_game`: the win-probability model
and the concessions model, then `_score_candidate`. -/
noncomputable def evalCandidate (game : Game) (vcfg : VenueCfg) (menu : Menu)
    (cur : CurrentScenario) (base_p : ℝ) (target : Option ℝ) (pt : GridPoint) :
    Option OptimizeCandidate :=
  let hfa := predictHfa
    { attendance := pt.attendance
      venue_capacity := game.venue_capacity
      student_ratio := pt.student_ratio
      rivalry_flag := game.rivalry_flag
      opponent_rank := cur.opponent_rank
      home_team_rank := cur.home_team_rank
      weather_wind_mph := cur.weather_wind_mph
      kickoff_time_local := cur.kickoff_time_local
      promotion_type := cur.promotion_type
      crowd_energy := pt.crowd_energy
      is_indoor := false }
  (simulateConcessions menu vcfg.sport_mult vcfg.conc pt.attendance pt.student_ratio
      cur.kickoff_time_local cur.weather_temp_f cur.promotion_type pt.stands_open_pct
      pt.staff_per_stand pt.express_lanes cur.early_arrival_promo false).map (fun c =>
    let delta_win := hfa.predicted_win_probability - base_p
    { overrides := pt
      delta_win_probability := delta_win
      ops_worst_utilization := c.worst_utilization
      revenue_total_usd := c.revenue_total_usd
      score := scoreCandidate delta_win c.worst_utilization c.revenue_total_usd target })

/-- The candidate-building loop: an exception in any evaluation (`none`)
propagates. -/
noncomputable def candidatesFrom (game : Game) (vcfg : VenueCfg) (menu : Menu)
    (cur : CurrentScenario) (base_p : ℝ) (target : Option ℝ) :
    List GridPoint → Option (List OptimizeCandidate)
  | [] => some []
  | pt :: pts =>
    match evalCandidate game vcfg menu cur base_p target pt,
        candidatesFrom game vcfg menu cur base_p target pts with
    | some c, some cs => some (c :: cs)
    | _, _ => none

/-- `candidates.sort(key=score, reverse=True)`: a stable sort descending by
score (Python's sort is stable; insertion sort is the stable reference). -/
noncomputable def sortCandidates (l : List OptimizeCandidate) : List OptimizeCandidate :=
  @List.insertionSort OptimizeCandidate (fun c d => d.score ≤ c.score)
    (fun _ _ => Classical.propDecidable _) l

/-- Embedding of `optimize_game`: build every candidate of the grid, sort
descending by score, return the head and the next five (`none` models the
`IndexError` on an empty candidate list or an exception during
evaluation). -/
noncomputable def optimizeGame (game : Game) (req : OptimizeRequest) (vcfg : VenueCfg)
    (menu : Menu) : Option (OptimizeCandidate × List OptimizeCandidate) :=
  let cur := optCurrent game vcfg req.current_overrides
  let base_p := (predictHfa (baseHfaInputs game vcfg)).predicted_win_probability
  match candidatesFrom game vcfg menu cur base_p req.target_delta_win_pp
      (optGridPoints cur req) with
  | Option.none => Option.none
  | some cands =>
    match sortCandidates cands with
    | [] => Option.none
    | best :: rest => some (best, rest.take 5)

theorem candidatesFrom_length (game : Game) (vcfg : VenueCfg) (menu : Menu)
    (cur : CurrentScenario) (base_p : ℝ) (target : Option ℝ) :
    ∀ pts cs, candidatesFrom game vcfg menu cur base_p target pts = some cs →
      cs.length = pts.length := by
  intro pts
  induction pts with
  | nil =>
    intro cs h
    simp only [candidatesFrom] at h
    obtain rfl := (Option.some_injective _ h).symm
    rfl
  | cons pt pts ih =>
    intro cs h
    simp only [candidatesFrom] at h
    cases he : evalCandidate game vcfg menu cur base_p target pt with
    | none => rw [he] at h; simp at h
    | some c =>
      cases hr : candidatesFrom game vcfg menu cur base_p target pts with
      | none => rw [he, hr] at h; simp at h
      | some cs' =>
        rw [he, hr] at h
        dsimp only at h
        obtain rfl := (Option.some_injective _ h).symm
        simp [ih cs' hr]

/-- Claim C1: whenever `optimize_game` returns, the recommended candidate's
score is at least every returned alternative's score and at least the score
of every evaluated point of the discretized grid; the candidate list has one
entry per grid point (exhaustive enumeration). -/
theorem c1_optimizer_recommended_is_grid_maximum (game : Game) (req : OptimizeRequest)
    (vcfg : VenueCfg) (menu : Menu) :
    (optimizeGame game req vcfg menu).elim True (fun ba =>
      ba.2.Forall (fun c => c.score ≤ ba.1.score) ∧
      (candidatesFrom game vcfg menu (optCurrent game vcfg req.current_overrides)
          (predictHfa (baseHfaInputs game vcfg)).predicted_win_probability
          req.target_delta_win_pp
          (optGridPoints (optCurrent game vcfg req.current_overrides) req)).elim True
        (fun cands => cands.Forall (fun c => c.score ≤ ba.1.score) ∧
          cands.length =
            (optGridPoints (optCurrent game vcfg req.current_overrides) req).length)) := by
  simp only [optimizeGame]
  cases h1 : candidatesFrom game vcfg menu (optCurrent game vcfg req.current_overrides)
      (predictHfa (baseHfaInputs game vcfg)).predicted_win_probability
      req.target_delta_win_pp
      (optGridPoints (optCurrent game vcfg req.current_overrides) req) with
  | none => exact trivial
  | some cands =>
    dsimp only
    haveI : IsTotal OptimizeCandidate (fun c d => d.score ≤ c.score) :=
      ⟨fun a b => le_total b.score a.score⟩
    haveI : IsTrans OptimizeCandidate (fun c d => d.score ≤ c.score) :=
      ⟨fun _ _ _ hab hbc => le_trans hbc hab⟩
    have hsorted : List.Sorted (fun c d : OptimizeCandidate => d.score ≤ c.score)
        (sortCandidates cands) := by
      unfold sortCandidates
      exact List.sorted_insertionSort _ cands
    have hperm : (sortCandidates cands).Perm cands := by
      unfold sortCandidates
      exact List.perm_insertionSort _ cands
    cases h2 : sortCandidates cands with
    | nil => exact trivial
    | cons best rest =>
      rw [h2] at hsorted hperm
      have hbest : ∀ c ∈ cands, c.score ≤ best.score := by
        intro c hc
        have hc2 : c ∈ best :: rest := hperm.symm.subset hc
        rcases List.mem_cons.mp hc2 with rfl | hc3
        · exact le_refl _
        · exact List.rel_of_sorted_cons hsorted c hc3
      dsimp only [Option.elim]
      constructor
      · rw [List.forall_iff_forall_mem]
        intro c hc
        exact List.rel_of_sorted_cons hsorted c (List.take_subset _ _ hc)
      · constructor
        · rw [List.forall_iff_forall_mem]
          intro c hc
          exact hbest c hc
        · exact candidatesFrom_length game vcfg menu _ _ _ _ cands h1

/-- Counterexample to claim C6: with the configured minimum 10 (an
admissible value), the stands axis does not start at 10 — its first value is
50, because the code floors the axis at `max(min_stands_open_pct, 50)`. -/
theorem c6_stands_floor_counterexample :
    (10 : ℤ) ∉ standsVals 10 ∧ (standsVals 10).head? = some 50 := by decide

/-- Claim C6 (amended): the discretized `stands_open_pct` axis starts at
`max(min_stands_open_pct, 50)` — not at the configured minimum — and goes up
to 100 in steps of 5: its members are exactly the values
`max(min, 50) + 5·k` that are at most 100. -/
theorem c6_amended_stands_axis_floor_50 (m : ℤ) (h1 : 10 ≤ m) (h2 : m ≤ 100) :
    max m 50 ∈ standsVals m ∧
    (∀ x ∈ standsVals m, max m 50 ≤ x) ∧
    (∀ x : ℤ, x ∈ standsVals m ↔ ∃ k : ℕ, x = max m 50 + 5 * (k : ℤ) ∧ x ≤ 100) := by
  have hmem : ∀ x : ℤ, x ∈ standsVals m ↔ ∃ k : ℕ, x = max m 50 + 5 * (k : ℤ) ∧ x ≤ 100 := by
    intro x
    unfold standsVals rangeStep
    rw [List.mem_map]
    constructor
    · rintro ⟨k, hk, rfl⟩
      rw [List.mem_range] at hk
      exact ⟨k, rfl, by omega⟩
    · rintro ⟨k, rfl, hx⟩
      exact ⟨k, List.mem_range.mpr (by omega), rfl⟩
  refine ⟨?_, ?_, hmem⟩
  · exact (hmem _).mpr ⟨0, by push_cast; ring, by omega⟩
  · intro x hx
    rcases (hmem x).mp hx with ⟨k, rfl, -⟩
    omega

/-- Witness for the amended C6 theorem at the concrete minimum 80. -/
theorem c6_amended_stands_axis_floor_50_witness :
    10 ≤ (80 : ℤ) ∧ (80 : ℤ) ≤ 100 ∧ max (80 : ℤ) 50 ∈ standsVals 80 :=
  ⟨by decide, by decide, (c6_amended_stands_axis_floor_50 80 (by decide) (by decide)).1⟩

/-- Python `int(x)` on a float: truncation toward zero. -/
noncomputable def intTrunc (x : ℝ) : ℤ := if 0 ≤ x then ⌊x⌋ else ⌈x⌉

/-- The random numbers one Monte Carlo trial draws: three full-range and one
half-range relative factors (each a `uniform(-1, 1)` value scaled by the
variation at the use site) and the `randint(-1, 1)` staff jitter. -/
structure TrialDraw where
  r_att : ℝ
  r_sr : ℝ
  r_en : ℝ
  r_st : ℝ
  j_staff : ℤ

/-- The base values `run_monte_carlo` resolves from the game, venue and
overrides before the trial loop. -/
structure MCParams where
  venue_capacity : ℤ
  is_indoor : Bool
  base_attendance : ℤ
  base_student_ratio : ℝ
  base_crowd_energy : ℤ
  base_stands_open : ℤ
  base_staff : ℤ
  kickoff_time_local : String
  weather_wind_mph : ℤ
  weather_temp_f : ℤ
  promotion_type : PromotionType
  express_lanes : Bool
  early_arrival_promo : Bool
  seats_open_pct : ℤ
  rivalry_flag : Bool
  opponent_rank : Option ℤ
  home_team_rank : Option ℤ

/-- The declared default trial count of `run_monte_carlo`. -/
def mcDefaultNSimulations : ℕ := 500

/-- The declared default relative variation of `run_monte_carlo`. -/
noncomputable def mcDefaultVariationPct : ℝ := 0.10

/-- One Monte Carlo trial: perturb attendance, student ratio, crowd energy
(full variation), stands-open percentage (half variation) and staff
(±1 jitter), clamp each to its domain range, then run the three models and
collect (win probability, decibels, revenue, worst utilization). -/
noncomputable def mcTrial (menu : Menu) (sport_mult : ℝ) (conc : VenueConcessions)
    (p : MCParams) (variation_pct : ℝ) (d : TrialDraw) : Option (ℝ × ℝ × ℝ × ℝ) :=
  let min_attendance : ℤ := max 0 (intTrunc ((p.venue_capacity : ℝ) * 0.5))
  let max_attendance : ℤ := intTrunc ((p.venue_capacity : ℝ) * 1.1)
  let attendance : ℤ := max min_attendance (min max_attendance
    (intTrunc ((p.base_attendance : ℝ) * (1 + variation_pct * d.r_att))))
  let student_ratio : ℝ :=
    max 0.10 (min 0.30 (p.base_student_ratio * (1 + variation_pct * d.r_sr)))
  let crowd_energy : ℝ :=
    max 50 (min 100 ((p.base_crowd_energy : ℝ) * (1 + variation_pct * d.r_en)))
  let stands_open : ℝ :=
    max 70 (min 100 ((p.base_stands_open : ℝ) * (1 + variation_pct * 0.5 * d.r_st)))
  let staff : ℤ := max 4 (min 12 (p.base_staff + d.j_staff))
  let effective_cap : ℤ :=
    max 1 (intTrunc ((p.venue_capacity : ℝ) * (p.seats_open_pct : ℝ) / 100))
  let hfa := predictHfa
    { attendance := attendance
      venue_capacity := effective_cap
      student_ratio := student_ratio
      rivalry_flag := p.rivalry_flag
      opponent_rank := pyOrInt p.opponent_rank 25
      home_team_rank := pyOrInt p.home_team_rank 25
      weather_wind_mph := p.weather_wind_mph
      kickoff_time_local := p.kickoff_time_local
      promotion_type := p.promotion_type
      crowd_energy := intTrunc crowd_energy
      is_indoor := p.is_indoor }
  let noise := predictLoudnessDb
    { attendance := attendance
      venue_capacity := p.venue_capacity
      rivalry_flag := p.rivalry_flag
      kickoff_time_local := p.kickoff_time_local
      crowd_energy := intTrunc crowd_energy
      student_ratio := student_ratio
      is_indoor := p.is_indoor
      weather_temp_f := p.weather_temp_f }
  (simulateConcessions menu sport_mult conc attendance student_ratio p.kickoff_time_local
      p.weather_temp_f p.promotion_type (intTrunc stands_open) staff p.express_lanes
      p.early_arrival_promo p.is_indoor).map (fun c =>
    (hfa.predicted_win_probability, noise.projected_decibels, c.revenue_total_usd,
     c.worst_utilization))

/-- Run an `Option`-valued function over a list, aborting on the first
`none` (a raised exception stops the loop). -/
def optionMapList {α β : Type} (f : α → Option β) : List α → Option (List β)
  | [] => some []
  | x :: xs =>
    match f x, optionMapList f xs with
    | some y, some ys => some (y :: ys)
    | _, _ => none

/-- The four raw sample vectors of `run_monte_carlo`. -/
structure MCSamples where
  win_probs : List ℝ
  decibels : List ℝ
  revenues : List ℝ
  utilizations : List ℝ

/-- The trial loop of `run_monte_carlo`: `n_simulations` independent trials
(the draws stream supplies each trial's randomness), collected into the four
per-metric sample lists.  Defaults are the source's `n_simulations=500`,
`variation_pct=0.10`. -/
noncomputable def mcSamples (menu : Menu) (sport_mult : ℝ) (conc : VenueConcessions)
    (p : MCParams) (draws : ℕ → TrialDraw)
    (n_simulations : ℕ := mcDefaultNSimulations)
    (variation_pct : ℝ := mcDefaultVariationPct) : Option MCSamples :=
  (optionMapList (fun k => mcTrial menu sport_mult conc p variation_pct (draws k))
      (List.range n_simulations)).map (fun ts =>
    { win_probs := ts.map (fun t => t.1)
      decibels := ts.map (fun t => t.2.1)
      revenues := ts.map (fun t => t.2.2.1)
      utilizations := ts.map (fun t => t.2.2.2) })

/-- One histogram bin of `make_histogram`. -/
structure HistBin (α : Type) where
  bin_start : α
  bin_end : α
  bin_center : α
  count : ℕ
  frequency : α

/-- Embedding of `make_histogram`: `n_bins` equal-width bins spanning the
observed min/max (width 1 when all values coincide); every bin — the last
included — counts values with `bin_start <= v < bin_end`.  `none` models the
`ValueError` Python's `min([])` raises on an empty sample list. -/
def makeHistogram {α : Type} [LinearOrderedField α] (values : List α) (n_bins : ℕ := 20) :
    Option (List (HistBin α)) :=
  match values with
  | [] => Option.none
  | v :: vs =>
    let min_val := vs.foldl min v
    let max_val := vs.foldl max v
    let bin_width := if min_val < max_val then (max_val - min_val) / (n_bins : α) else 1
    some ((List.range n_bins).map (fun (i : ℕ) =>
      { bin_start := min_val + (i : α) * bin_width
        bin_end := min_val + (i : α) * bin_width + bin_width
        bin_center := (min_val + (i : α) * bin_width + (min_val + (i : α) * bin_width + bin_width)) / 2
        count := values.countP (fun w =>
          decide (min_val + (i : α) * bin_width ≤ w) &&
          decide (w < min_val + (i : α) * bin_width + bin_width))
        frequency := (values.countP (fun w =>
          decide (min_val + (i : α) * bin_width ≤ w) &&
          decide (w < min_val + (i : α) * bin_width + bin_width)) : α) / (values.length : α) }))

/-- The sum of a histogram's bin counts. -/
def histCountsSum {α : Type} (bins : List (HistBin α)) : ℕ :=
  (bins.map (fun b => b.count)).sum

/-- `min(values)` of a nonempty list (junk 0 on `[]`, unreachable under the
`makeHistogram` guard). -/
def listMin {α : Type} [LinearOrder α] [Zero α] : List α → α
  | [] => 0
  | v :: vs => vs.foldl min v

/-- `max(values)` of a nonempty list (junk 0 on `[]`). -/
def listMax {α : Type} [LinearOrder α] [Zero α] : List α → α
  | [] => 0
  | v :: vs => vs.foldl max v

/-- Python `sorted(values)` (ascending, stable). -/
noncomputable def pySorted (values : List ℝ) : List ℝ :=
  @List.insertionSort ℝ (fun a b => a ≤ b) (fun _ _ => Classical.propDecidable _) values

/-- The summary statistics of `compute_stats` (population std via square
root; percentile indices truncate `n·q`). -/
structure MCStats where
  mean : ℝ
  std : ℝ
  vmin : ℝ
  vmax : ℝ
  p5 : ℝ
  p25 : ℝ
  p50 : ℝ
  p75 : ℝ
  p95 : ℝ

/-- Embedding of `compute_stats` (list indexing defaults to 0 where Python
would raise on an empty list; `run_monte_carlo` is modelled as failing before
that point when the sample list is empty). -/
noncomputable def computeStats (values : List ℝ) : MCStats :=
  let n : ℝ := (values.length : ℝ)
  let mean := values.sum / n
  let sorted := pySorted values
  { mean := mean
    std := Real.sqrt (((values.map (fun v => (v - mean) ^ 2)).sum) / n)
    vmin := sorted.getD 0 0
    vmax := sorted.getD (sorted.length - 1) 0
    p5 := sorted.getD (intTrunc (n * 0.05)).toNat 0
    p25 := sorted.getD (intTrunc (n * 0.25)).toNat 0
    p50 := sorted.getD (intTrunc (n * 0.50)).toNat 0
    p75 := sorted.getD (intTrunc (n * 0.75)).toNat 0
    p95 := sorted.getD (intTrunc (n * 0.95)).toNat 0 }

/-- One metric's block of `run_monte_carlo`'s result. -/
structure MetricResult where
  stats : MCStats
  histogram : List (HistBin ℝ)
  values : List ℝ

/-- The full `run_monte_carlo` result. -/
structure MCResult where
  n_simulations : ℕ
  variation_pct : ℝ
  win_probability : MetricResult
  decibels : MetricResult
  revenue : MetricResult
  utilization : MetricResult

/-- Embedding of `run_monte_carlo`: the trial loop, then per metric the
summary statistics, the 20-bin histogram, and the raw sample vector.
`none` models every exception path (a trial raising inside the queue model,
or `n_simulations = 0` making the aggregation raise). -/
noncomputable def runMonteCarlo (menu : Menu) (sport_mult : ℝ) (conc : VenueConcessions)
    (p : MCParams) (draws : ℕ → TrialDraw)
    (n_simulations : ℕ := mcDefaultNSimulations)
    (variation_pct : ℝ := mcDefaultVariationPct) : Option MCResult :=
  (mcSamples menu sport_mult conc p draws n_simulations variation_pct).bind (fun s =>
    match makeHistogram s.win_probs 20, makeHistogram s.decibels 20,
        makeHistogram s.revenues 20, makeHistogram s.utilizations 20 with
    | some h1, some h2, some h3, some h4 =>
      some { n_simulations := n_simulations
             variation_pct := variation_pct
             win_probability := { stats := computeStats s.win_probs, histogram := h1,
                                  values := s.win_probs }
             decibels := { stats := computeStats s.decibels, histogram := h2,
                           values := s.decibels }
             revenue := { stats := computeStats s.revenues, histogram := h3,
                          values := s.revenues }
             utilization := { stats := computeStats s.utilizations, histogram := h4,
                              values := s.utilizations } }
    | _, _, _, _ => Option.none)

theorem sum_map_add {β : Type} (l : List β) (f g : β → ℕ) :
    (l.map (fun x => f x + g x)).sum = (l.map f).sum + (l.map g).sum := by
  induction l with
  | nil => simp
  | cons x xs ih => simp [ih]; omega

theorem sum_map_ite_eq_countP {β : Type} (l : List β) (p : β → Bool) :
    (l.map (fun x => if p x then 1 else 0)).sum = l.countP p := by
  induction l with
  | nil => simp
  | cons x xs ih => simp [List.countP_cons, ih]; omega

theorem countP_range_eq_ite (n i0 : ℕ) :
    (List.range n).countP (fun i => decide (i = i0)) = if i0 < n then 1 else 0 := by
  induction n with
  | zero => simp
  | succ n ih =>
    rw [List.range_succ, List.countP_append, ih]
    simp only [List.countP_cons, List.countP_nil, decide_eq_true_eq]
    split_ifs <;> omega

theorem bin_pred_iff {α : Type} [LinearOrderedField α] [FloorRing α] (mn w0 w : α)
    (hw0 : 0 < w0) (hlo : mn ≤ w) (i : ℕ) :
    (mn + (i : α) * w0 ≤ w ∧ w < mn + (i : α) * w0 + w0) ↔ i = ⌊(w - mn) / w0⌋₊ := by
  have hq0 : 0 ≤ (w - mn) / w0 := div_nonneg (by linarith) hw0.le
  rw [eq_comm, Nat.floor_eq_iff hq0, le_div_iff hw0, div_lt_iff hw0]
  constructor <;> rintro ⟨h1, h2⟩ <;> constructor <;> nlinarith

theorem countBins_eq {α : Type} [LinearOrderedField α] [FloorRing α] (mn w0 w : α)
    (hw0 : 0 < w0) (hlo : mn ≤ w) (n : ℕ) :
    (List.range n).countP (fun (i : ℕ) =>
        decide (mn + (i : α) * w0 ≤ w) && decide (w < mn + (i : α) * w0 + w0)) =
      if w < mn + (n : α) * w0 then 1 else 0 := by
  have hq0 : 0 ≤ (w - mn) / w0 := div_nonneg (by linarith) hw0.le
  have hfun : (fun i : ℕ =>
      decide (mn + (i : α) * w0 ≤ w) && decide (w < mn + (i : α) * w0 + w0)) =
      (fun i : ℕ => decide (i = ⌊(w - mn) / w0⌋₊)) := by
    funext i
    rw [Bool.eq_iff_iff]
    simp only [Bool.and_eq_true, decide_eq_true_eq]
    exact bin_pred_iff mn w0 w hw0 hlo i
  rw [hfun, countP_range_eq_ite]
  by_cases hcase : w < mn + (n : α) * w0
  · rw [if_pos hcase, if_pos]
    rw [Nat.floor_lt hq0, div_lt_iff hw0]
    nlinarith
  · rw [if_neg hcase, if_neg]
    rw [Nat.floor_lt hq0, div_lt_iff hw0]
    intro hc
    exact hcase (by nlinarith)

theorem sum_bins_eq {α : Type} [LinearOrderedField α] [FloorRing α] (mn w0 : α)
    (hw0 : 0 < w0) (n : ℕ) :
    ∀ l : List α, (∀ w ∈ l, mn ≤ w) →
      ((List.range n).map (fun (i : ℕ) => l.countP (fun w =>
          decide (mn + (i : α) * w0 ≤ w) && decide (w < mn + (i : α) * w0 + w0)))).sum =
        l.countP (fun w => decide (w < mn + (n : α) * w0)) := by
  intro l
  induction l with
  | nil => intro _; simp
  | cons w tl ih =>
    intro hmem
    have hw := hmem w (List.mem_cons_self _ _)
    have htl : ∀ x ∈ tl, mn ≤ x := fun x hx => hmem x (List.mem_cons_of_mem _ hx)
    simp only [List.countP_cons]
    rw [sum_map_add, ih htl, sum_map_ite_eq_countP, countBins_eq mn w0 w hw0 hw n]
    by_cases hcase : w < mn + (n : α) * w0 <;> simp [hcase]

theorem foldl_min_le_self {α : Type} [LinearOrder α] :
    ∀ (vs : List α) (v : α), vs.foldl min v ≤ v
  | [], v => le_refl v
  | x :: xs, v => le_trans (foldl_min_le_self xs (min v x)) (min_le_left v x)

theorem foldl_min_le_mem {α : Type} [LinearOrder α] :
    ∀ (vs : List α) (v w : α), w ∈ vs → vs.foldl min v ≤ w
  | x :: xs, v, w, hw => by
    rcases List.mem_cons.mp hw with rfl | hw'
    · exact le_trans (foldl_min_le_self xs (min v w)) (min_le_right v w)
    · exact foldl_min_le_mem xs (min v x) w hw'

theorem self_le_foldl_max {α : Type} [LinearOrder α] :
    ∀ (vs : List α) (v : α), v ≤ vs.foldl max v
  | [], v => le_refl v
  | x :: xs, v => le_trans (le_max_left v x) (self_le_foldl_max xs (max v x))

theorem mem_le_foldl_max {α : Type} [LinearOrder α] :
    ∀ (vs : List α) (v w : α), w ∈ vs → w ≤ vs.foldl max v
  | x :: xs, v, w, hw => by
    rcases List.mem_cons.mp hw with rfl | hw'
    · exact le_trans (le_max_right v w) (self_le_foldl_max xs (max v w))
    · exact mem_le_foldl_max xs (max v x) w hw'

theorem histCountsSum_map {α β : Type} (f : β → HistBin α) (l : List β) :
    histCountsSum (l.map f) = (l.map (fun x => (f x).count)).sum := by
  unfold histCountsSum
  rw [List.map_map]
  rfl

/-- The bin counts of `make_histogram` sum to the number of values strictly
below the observed maximum when the values are not all equal (the last bin's
strict upper bound excludes the maximum), and to the full sample count when
they are (single-point data, width-1 bins). -/
theorem makeHistogram_counts_sum {α : Type} [LinearOrderedField α] [FloorRing α]
    (values : List α) (n : ℕ) (hn : 0 < n) :
    ∀ bins, makeHistogram values n = some bins →
      histCountsSum bins =
        if listMin values < listMax values
        then values.countP (fun w => decide (w < listMax values))
        else values.length := by
  cases values with
  | nil => intro bins h; simp [makeHistogram] at h
  | cons v vs =>
    intro bins h
    simp only [makeHistogram] at h
    obtain rfl := (Option.some_injective _ h).symm
    rw [histCountsSum_map]
    dsimp only
    simp only [listMin, listMax]
    have hlo : ∀ w ∈ v :: vs, vs.foldl min v ≤ w := by
      intro w hw
      rcases List.mem_cons.mp hw with rfl | hw'
      · exact foldl_min_le_self vs w
      · exact foldl_min_le_mem vs v w hw'
    have hhi : ∀ w ∈ v :: vs, w ≤ vs.foldl max v := by
      intro w hw
      rcases List.mem_cons.mp hw with rfl | hw'
      · exact self_le_foldl_max vs w
      · exact mem_le_foldl_max vs v w hw'
    have hmnmx : vs.foldl min v ≤ vs.foldl max v :=
      le_trans (foldl_min_le_self vs v) (self_le_foldl_max vs v)
    by_cases hlt : vs.foldl min v < vs.foldl max v
    · have hne : ((n : α)) ≠ 0 := Nat.cast_ne_zero.mpr hn.ne'
      have hw0 : 0 < (vs.foldl max v - vs.foldl min v) / (n : α) := by
        apply div_pos (by linarith)
        exact_mod_cast hn
      simp only [if_pos hlt]
      rw [sum_bins_eq _ _ hw0 n (v :: vs) hlo]
      have hxm : vs.foldl min v + (n : α) * ((vs.foldl max v - vs.foldl min v) / (n : α)) =
          vs.foldl max v := by
        field_simp
      rw [hxm]
    · simp only [if_neg hlt]
      rw [sum_bins_eq _ _ one_pos n (v :: vs) hlo]
      have hmx : vs.foldl max v = vs.foldl min v := le_antisymm (not_lt.mp hlt) hmnmx
      rw [List.countP_eq_length]
      intro w hw
      have h1 := hhi w hw
      have h2 : (0 : α) < (n : α) := by exact_mod_cast hn
      simp only [decide_eq_true_eq]
      rw [hmx] at h1
      nlinarith

theorem optionMapList_length {α β : Type} (f : α → Option β) :
    ∀ l ys, optionMapList f l = some ys → ys.length = l.length := by
  intro l
  induction l with
  | nil =>
    intro ys h
    simp only [optionMapList] at h
    obtain rfl := (Option.some_injective _ h).symm
    rfl
  | cons x xs ih =>
    intro ys h
    simp only [optionMapList] at h
    cases hfx : f x with
    | none => rw [hfx] at h; simp at h
    | some y =>
      cases hrest : optionMapList f xs with
      | none => rw [hfx, hrest] at h; simp at h
      | some ys' =>
        rw [hfx, hrest] at h
        dsimp only at h
        obtain rfl := (Option.some_injective _ h).symm
        simp [ih ys' hrest]

theorem mcSamples_lengths (menu : Menu) (sport_mult : ℝ) (conc : VenueConcessions)
    (p : MCParams) (draws : ℕ → TrialDraw) (K : ℕ) (variation_pct : ℝ) :
    ∀ s, mcSamples menu sport_mult conc p draws K variation_pct = some s →
      s.win_probs.length = K ∧ s.decibels.length = K ∧
      s.revenues.length = K ∧ s.utilizations.length = K := by
  intro s hs
  unfold mcSamples at hs
  cases ht : optionMapList (fun k => mcTrial menu sport_mult conc p variation_pct (draws k))
      (List.range K) with
  | none => rw [ht] at hs; simp at hs
  | some ts =>
    rw [ht] at hs
    simp only [Option.map_some'] at hs
    obtain rfl := (Option.some_injective _ hs).symm
    have h1 := optionMapList_length _ _ _ ht
    refine ⟨?_, ?_, ?_, ?_⟩ <;> simp [h1]

/-- The histogram-sum law of one returned metric: its 20 bin counts sum to
the number of its samples strictly below its observed maximum when the
samples are not all equal, and to the sample count otherwise. -/
def histSpec (m : MetricResult) : Prop :=
  histCountsSum m.histogram =
    if listMin m.values < listMax m.values
    then m.values.countP (fun w => decide (w < listMax m.values))
    else m.values.length

/-- Claim C2 (amended): whenever the Monte Carlo engine returns for trial
count K, every metric carries exactly K raw samples, and each metric's
20-bin histogram counts sum to the number of samples strictly below the
observed maximum when the samples are not all equal (every bin, the last
included, has a strict upper bound, so the maximum is dropped), and to K
when all K samples are equal. -/
theorem c2_amended_monte_carlo_sample_counts (menu : Menu) (sport_mult : ℝ)
    (conc : VenueConcessions) (p : MCParams) (draws : ℕ → TrialDraw) (K : ℕ)
    (variation_pct : ℝ) :
    (runMonteCarlo menu sport_mult conc p draws K variation_pct).elim True (fun r =>
      (r.win_probability.values.length = K ∧ r.decibels.values.length = K ∧
        r.revenue.values.length = K ∧ r.utilization.values.length = K) ∧
      (histSpec r.win_probability ∧ histSpec r.decibels ∧
        histSpec r.revenue ∧ histSpec r.utilization)) := by
  unfold runMonteCarlo
  cases hs : mcSamples menu sport_mult conc p draws K variation_pct with
  | none => exact trivial
  | some s =>
    dsimp only [Option.bind]
    obtain ⟨hl1, hl2, hl3, hl4⟩ :=
      mcSamples_lengths menu sport_mult conc p draws K variation_pct s hs
    cases h1 : makeHistogram s.win_probs 20 with
    | none => exact trivial
    | some b1 =>
      cases h2 : makeHistogram s.decibels 20 with
      | none => exact trivial
      | some b2 =>
        cases h3 : makeHistogram s.revenues 20 with
        | none => exact trivial
        | some b3 =>
          cases h4 : makeHistogram s.utilizations 20 with
          | none => exact trivial
          | some b4 =>
            dsimp only [Option.elim]
            refine ⟨⟨hl1, hl2, hl3, hl4⟩, ?_, ?_, ?_, ?_⟩
            · exact makeHistogram_counts_sum s.win_probs 20 (by norm_num) b1 h1
            · exact makeHistogram_counts_sum s.decibels 20 (by norm_num) b2 h2
            · exact makeHistogram_counts_sum s.revenues 20 (by norm_num) b3 h3
            · exact makeHistogram_counts_sum s.utilizations 20 (by norm_num) b4 h4

/-- Counterexample to claim C2 as stated: a sample vector of two distinct
values (0 and 1) has histogram counts summing to 1, not to the sample count
2 — the observed maximum falls outside every half-open bin. -/
theorem c2_histogram_drops_max_counterexample :
    (makeHistogram ([0, 1] : List ℚ) 20).map histCountsSum = some 1 ∧
    ([0, 1] : List ℚ).length = 2 := by
  cases hmk : makeHistogram ([0, 1] : List ℚ) 20 with
  | none => simp [makeHistogram] at hmk
  | some bins =>
    have hsum := makeHistogram_counts_sum ([0, 1] : List ℚ) 20 (by norm_num) bins hmk
    simp only [Option.map_some']
    refine ⟨?_, rfl⟩
    rw [hsum]
    norm_num [listMin, listMax, List.foldl, List.countP_cons, List.countP_nil]

/-- Counterexample to claim C5: `run_monte_carlo`'s own defaults are 500
trials and ±10%, not 200 and ±8% (the HTTP layer passes 200/0.08
explicitly). -/
theorem c5_monte_carlo_defaults_counterexample :
    (mcDefaultNSimulations = 500 ∧ ¬(mcDefaultNSimulations = 200)) ∧
    (mcDefaultVariationPct = 1 / 10 ∧ ¬(mcDefaultVariationPct = 2 / 25)) := by
  refine ⟨⟨rfl, by norm_num [mcDefaultNSimulations]⟩, ?_, ?_⟩
  · norm_num [mcDefaultVariationPct]
  · norm_num [mcDefaultVariationPct]

/-- Claim C5 (amended): the declared defaults of `run_monte_carlo` are
`n_simulations = 500` and `variation_pct = 0.10`, and a call that does not
specify them runs 500 trials (each metric collects 500 samples whenever the
engine returns). -/
theorem c5_amended_monte_carlo_defaults :
    mcDefaultNSimulations = 500 ∧ mcDefaultVariationPct = 1 / 10 ∧
    ∀ (menu : Menu) (sport_mult : ℝ) (conc : VenueConcessions) (p : MCParams)
      (draws : ℕ → TrialDraw),
      (mcSamples menu sport_mult conc p draws).elim True
        (fun s => s.win_probs.length = 500 ∧ s.decibels.length = 500 ∧
          s.revenues.length = 500 ∧ s.utilizations.length = 500) := by
  refine ⟨rfl, by norm_num [mcDefaultVariationPct], ?_⟩
  intro menu sport_mult conc p draws
  cases hs : mcSamples menu sport_mult conc p draws with
  | none => exact trivial
  | some s =>
    dsimp only [Option.elim]
    exact mcSamples_lengths menu sport_mult conc p draws
      mcDefaultNSimulations mcDefaultVariationPct s hs

end Fie

